import Mathlib

/-!
Shallow embedding of `src/libs/langchain/langchain/llms/portkey.py`.

The file under verification is the `Portkey` LLM adapter: a pydantic model
with fields `mode`, `model`, `streaming`, `llms`, the private `_portkey`
reference to the imported `portkey` module, a constructor, `add_llms`,
`_call`, `_stream` and the `_client` property.  The external `portkey`
package is modelled as mutable module-level state (`PortkeyModule`) plus an
oracle function standing for `Completions.create`; whether the package can
be imported at all is a boolean parameter `available` threaded through every
operation that executes a guarded `import`.  Python exceptions (the guarded
`ImportError` and the `IndexError` from indexing `[0]` into an empty list)
are modelled with `Except`.

The unused pydantic field `llm` (declared with `default_factory=dict` and
never read or written anywhere in the file) is not modelled.
-/

set_option autoImplicit false

/-- Routing mode values of the gateway (the external `Modes` / `ModesLiteral`
types are string-valued). -/
abbrev Modes := String

/-- Extra keyword arguments (`**kwargs`) forwarded verbatim to the gateway
client; modelled as an association list of string-valued settings. -/
abbrev KwArgs := List (String × String)

/-- One LLM parameter set, the external `portkey.LLMOptions`.  The adapter
only ever reads the `model` attribute; the other fields stand for the rest of
the option record and are carried around untouched. -/
structure LLMOptions where
  model : String
  provider : Option String := none
  virtual_key : Option String := none
  deriving Repr, DecidableEq

/-- The external `portkey.Config`; the adapter only ever builds it as
`Config(llms=self.llms)`. -/
structure Config where
  llms : List LLMOptions
  deriving Repr, DecidableEq

/-- Mutable module-level state of the imported `portkey` package: the
attributes the adapter assigns (`portkey.api_key`, `portkey.base_url`,
`portkey.mode`, and the `config` attribute set through `self._portkey`). -/
structure PortkeyModule where
  api_key : Option String := none
  base_url : Option String := none
  mode : Option Modes := none
  config : Option Config := none
  deriving Repr, DecidableEq

/-- The `Portkey` adapter instance: its pydantic fields together with the
module reference stored in `self._portkey` (field `portkeyMod`; the leading
underscore of the Python name is dropped).  Since the module object is
global and the adapter keeps a reference to it, mutations performed through
`self._portkey` are modelled as updates of `portkeyMod`. -/
structure Portkey where
  mode : Option Modes := none
  model : Option String := some "gpt-3.5-turbo"
  streaming : Bool := false
  llms : List LLMOptions := []
  portkeyMod : PortkeyModule
  deriving Repr, DecidableEq

/-- An underlying Python `ImportError` raised by `import portkey` or
`from portkey import ...` when the package is missing; `modName` is the
module that failed to import. -/
structure ModuleImportFailure where
  modName : String
  deriving Repr, DecidableEq

/-- Exceptions the adapter's methods can raise: the guarded `ImportError`
(carrying its message and, via `raise ... from exc`, the original import
failure it is chained from), and the `IndexError` from `[0]` on an empty
list. -/
inductive PErr where
  | importError (message : String) (cause : ModuleImportFailure)
  | indexError
  deriving Repr, DecidableEq

/-- Python `import` of the external package: succeeds exactly when the
package is installed (`available = true`). -/
def importModule (available : Bool) (name : String) : Except ModuleImportFailure Unit :=
  if available then .ok () else .error ⟨name⟩

/-- The module-level constant `IMPORT_ERROR_MESSAGE` (lines 26-28). -/
def IMPORT_ERROR_MESSAGE : String :=
  "Portkey is not installed.Please install it with `pip install portkey-ai`."

/-- Python `text or default` on an optional string: `None` and the empty
string are falsy, any other string is returned unchanged. -/
def pyStrOr (t : Option String) (d : String) : String :=
  match t with
  | none => d
  | some s => if s = "" then d else s

/-- The adapter state produced by `super().__init__()`: every pydantic field
at its declared default (`mode=None`, `model="gpt-3.5-turbo"`,
`streaming=False`, `llms=[]`). -/
def Portkey.pydanticDefaults (mod : PortkeyModule) : Portkey :=
  { mode := none, model := some "gpt-3.5-turbo", streaming := false,
    llms := [], portkeyMod := mod }

/-- `Portkey.__init__` (lines 76-99): guarded `import portkey`, pydantic
defaults via `super().__init__()`, conditional assignment of
`portkey.api_key` and `portkey.base_url`, unconditional `portkey.mode =
mode`, storing the module in `self._portkey`, then `self.model = None` and
`self.mode = mode`. -/
def Portkey.init (available : Bool) (mod : PortkeyModule) (mode : Modes)
    (api_key : Option String) (base_url : Option String) : Except PErr Portkey :=
  match importModule available "portkey" with
  | .error exc => .error (.importError IMPORT_ERROR_MESSAGE exc)
  | .ok _ =>
    let base := Portkey.pydanticDefaults mod
    let mod1 := match api_key with
      | none => mod
      | some k => { mod with api_key := some k }
    let mod2 := match base_url with
      | none => mod1
      | some b => { mod1 with base_url := some b }
    let mod3 := { mod2 with mode := some mode }
    .ok { base with portkeyMod := mod3, model := none, mode := some mode }

/-- The `Union[LLMOptions, List[LLMOptions]]` argument of `add_llms`. -/
inductive LLMParamsArg where
  | single (o : LLMOptions)
  | list (l : List LLMOptions)
  deriving Repr, DecidableEq

/-- The `isinstance(llm_params, LLMOptions)` normalisation at lines 133-134:
a single option set becomes the one-element list containing it. -/
def normalizeLLMParams : LLMParamsArg → List LLMOptions
  | .single o => [o]
  | .list l => l

/-- `Portkey.add_llms` (lines 102-138): guarded `from portkey import
LLMOptions`, wrap a single `LLMOptions` into a list, `self.llms.extend(...)`,
then `if self.model is None: self.model = self.llms[0].model` (an
`IndexError` when the extended list is empty), and return `self`. -/
def Portkey.add_llms (available : Bool) (s : Portkey) (llm_params : LLMParamsArg) :
    Except PErr Portkey :=
  match importModule available "portkey" with
  | .error exc => .error (.importError IMPORT_ERROR_MESSAGE exc)
  | .ok _ =>
    let params := normalizeLLMParams llm_params
    let llms := s.llms ++ params
    match s.model with
    | some _ => .ok { s with llms := llms }
    | none =>
      match llms with
      | [] => .error .indexError
      | first :: _ => .ok { s with llms := llms, model := some first.model }

/-- One element of `response.choices` in a gateway response. -/
structure Choice where
  text : Option String
  deriving Repr, DecidableEq

/-- A non-streaming gateway response (`PortkeyResponse`). -/
structure PortkeyResponse where
  choices : List Choice
  deriving Repr, DecidableEq

/-- One token object produced by a streaming gateway response. -/
structure StreamToken where
  choices : List Choice
  deriving Repr, DecidableEq

/-- The completions request as handed to `Completions.create`: the `prompt`,
`stream` and `stop` keyword arguments plus the forwarded `**kwargs`. -/
structure Request where
  prompt : String
  stream : Bool
  stop : Option (List String)
  kwargs : KwArgs
  deriving Repr, DecidableEq

/-- The `_client` property (lines 171-178): guarded `from portkey import
Config`, then `self._portkey.config = Config(llms=self.llms)` and return of
the module.  The result pairs the updated adapter state with the returned
module object. -/
def Portkey.clientProp (available : Bool) (s : Portkey) :
    Except PErr (Portkey × PortkeyModule) :=
  match importModule available "portkey" with
  | .error exc => .error (.importError IMPORT_ERROR_MESSAGE exc)
  | .ok _ =>
    let m := { s.portkeyMod with config := some ⟨s.llms⟩ }
    .ok ({ s with portkeyMod := m }, m)

/-- `Portkey._call` (lines 140-169): guarded `from portkey import Config`,
`self._client.config = Config(llms=self.llms)` (the property access itself
already rebuilds the config, and the assignment writes it again), a
`Completions.create` request with `stream=False` forwarding prompt, stop and
kwargs, then `response.choices[0].text or ""`.  `create` is the oracle for
the external `Completions.create`.  The result carries the post state, the
request that was issued and the returned text. -/
def Portkey.call (available : Bool) (create : Request → PortkeyResponse)
    (s : Portkey) (prompt : String) (stop : Option (List String)) (kwargs : KwArgs) :
    Except PErr (Portkey × Request × String) :=
  match importModule available "portkey" with
  | .error exc => .error (.importError IMPORT_ERROR_MESSAGE exc)
  | .ok _ =>
    match Portkey.clientProp available s with
    | .error e => .error e
    | .ok (s1, client) =>
      let s2 := { s1 with portkeyMod := { client with config := some ⟨s1.llms⟩ } }
      let req : Request := { prompt := prompt, stream := false, stop := stop, kwargs := kwargs }
      let response := create req
      match response.choices with
      | [] => .error .indexError
      | c :: _ => .ok (s2, req, pyStrOr c.text "")

/-- A `GenerationChunk` as built by `_stream`: only its `text` field. -/
structure GenerationChunk where
  text : String
  deriving Repr, DecidableEq

/-- Observable events of one `_stream` iteration, in order: a chunk being
yielded, and a `run_manager.on_llm_new_token(chunk.text, chunk=chunk)`
callback. -/
inductive StreamEvent where
  | yielded (chunk : GenerationChunk)
  | onLLMNewToken (text : String) (chunk : GenerationChunk)
  deriving Repr, DecidableEq

/-- The loop body of `_stream` (lines 204-208) over the streamed tokens: for
each token build `GenerationChunk(text=token.choices[0].text or "")`, yield
it, and when a run manager is present invoke `on_llm_new_token` with the
chunk's text.  Indexing `choices[0]` on an empty list raises `IndexError`. -/
def streamEvents (hasRunManager : Bool) : List StreamToken → Except PErr (List StreamEvent)
  | [] => .ok []
  | t :: ts =>
    match t.choices with
    | [] => .error .indexError
    | c :: _ =>
      let chunk : GenerationChunk := ⟨pyStrOr c.text ""⟩
      match streamEvents hasRunManager ts with
      | .error e => .error e
      | .ok rest =>
        .ok (.yielded chunk ::
          ((if hasRunManager then [.onLLMNewToken chunk.text chunk] else []) ++ rest))

/-- `Portkey._stream` (lines 180-208): `self._client` (which rebuilds the
config), a `Completions.create` request with `stream=True` forwarding
prompt, stop and kwargs, then the yield loop over the streamed tokens.
`create` is the oracle for the external streaming `Completions.create`. -/
def Portkey.stream (available : Bool) (create : Request → List StreamToken)
    (s : Portkey) (prompt : String) (stop : Option (List String)) (kwargs : KwArgs)
    (hasRunManager : Bool) : Except PErr (Portkey × Request × List StreamEvent) :=
  match Portkey.clientProp available s with
  | .error e => .error e
  | .ok (s1, _client) =>
    let req : Request := { prompt := prompt, stream := true, stop := stop, kwargs := kwargs }
    let toks := create req
    match streamEvents hasRunManager toks with
    | .error e => .error e
    | .ok evs => .ok (s1, req, evs)

/-- The `_llm_type` property (lines 211-214). -/
def Portkey.llm_type : String := "portkey-ai-gateway"

/-- Sequential composition `add_llms(a)` then `add_llms(b)`, propagating the
first failure, for the grouping law of `add_llms`. -/
def Portkey.addSeq (available : Bool) (s : Portkey) (a b : List LLMOptions) :
    Except PErr Portkey :=
  match Portkey.add_llms available s (.list a) with
  | .error e => .error e
  | .ok s1 => Portkey.add_llms available s1 (.list b)

/-- An adapter method raised the guarded `ImportError` (as opposed to
returning normally or raising `IndexError`). -/
def raisesPortkeyImportError {α : Type} (r : Except PErr α) : Prop :=
  ∃ m c, r = .error (.importError m c)

/-- C1: for every prompt and optional stop list, `_call` issues one
completions request with `stream=False`, forwarding the prompt, the stop
list and all extra keyword arguments unchanged, and returns the text of the
first choice of the gateway response, with `""` substituted when that text
is `None` or empty — the result is always a string. -/
theorem portkey_c1_call (create : Request → PortkeyResponse) (s : Portkey)
    (prompt : String) (stop : Option (List String)) (kwargs : KwArgs)
    (c : Choice) (rest : List Choice)
    (hc : (create ⟨prompt, false, stop, kwargs⟩).choices = c :: rest) :
    Portkey.call true create s prompt stop kwargs =
      .ok ({ s with portkeyMod := { s.portkeyMod with config := some ⟨s.llms⟩ } },
        ⟨prompt, false, stop, kwargs⟩, pyStrOr c.text "") ∧
    (c.text = none → pyStrOr c.text "" = "") ∧
    (c.text = some "" → pyStrOr c.text "" = "") := by
  refine ⟨?_, ?_, ?_⟩
  · simp [Portkey.call, Portkey.clientProp, importModule, hc]
  · intro h
    simp [pyStrOr, h]
  · intro h
    simp [pyStrOr, h]

/-- The text of a token's first choice with `""` for `None`, as the claim
describes the chunk text of `_stream`; meaningful when `choices` is
nonempty, which is the case the code handles without raising. -/
def StreamToken.firstText (t : StreamToken) : String :=
  match t.choices with
  | [] => ""
  | c :: _ => pyStrOr c.text ""

/-- Event trace the specification ascribes to `_stream`: per streamed token,
in arrival order, exactly one yielded chunk carrying the token's first
choice text (with `""` for `None`), followed — when a run manager is present
— by one `on_llm_new_token` callback with that chunk's text. -/
def specStreamEvents (hasRunManager : Bool) : List StreamToken → List StreamEvent
  | [] => []
  | t :: ts => .yielded ⟨t.firstText⟩ ::
      ((if hasRunManager then [.onLLMNewToken t.firstText ⟨t.firstText⟩] else []) ++
        specStreamEvents hasRunManager ts)

lemma streamEvents_eq_spec (rm : Bool) (toks : List StreamToken)
    (h : ∀ t ∈ toks, t.choices ≠ []) :
    streamEvents rm toks = .ok (specStreamEvents rm toks) := by
  induction toks with
  | nil => rfl
  | cons t ts ih =>
    have ht : t.choices ≠ [] := h t (List.mem_cons_self t ts)
    have hts := ih (fun x hx => h x (List.mem_cons_of_mem _ hx))
    cases hc : t.choices with
    | nil => exact absurd hc ht
    | cons c cs =>
      simp [streamEvents, specStreamEvents, hc, hts, StreamToken.firstText]

/-- C2: for every prompt and optional stop list, `_stream` issues one
completions request with `stream=True`, forwarding prompt, stop and extra
keyword arguments, and produces exactly the specified event trace: one
yielded `GenerationChunk` per streamed token in arrival order, each chunk's
text being the token's first choice text with `""` substituted for `None`,
and — when a run manager is provided — one `on_llm_new_token` callback with
that chunk's text immediately after each yield. -/
theorem portkey_c2_stream (create : Request → List StreamToken) (s : Portkey)
    (prompt : String) (stop : Option (List String)) (kwargs : KwArgs) (rm : Bool)
    (h : ∀ t ∈ create ⟨prompt, true, stop, kwargs⟩, t.choices ≠ []) :
    Portkey.stream true create s prompt stop kwargs rm =
      .ok ({ s with portkeyMod := { s.portkeyMod with config := some ⟨s.llms⟩ } },
        ⟨prompt, true, stop, kwargs⟩,
        specStreamEvents rm (create ⟨prompt, true, stop, kwargs⟩)) := by
  simp [Portkey.stream, Portkey.clientProp, importModule,
    streamEvents_eq_spec rm _ h]

/-- C3: the optional-dependency import is guarded in the constructor, in
`add_llms`, in `_call` and in the `_client` property; each raises an
`ImportError` carrying exactly `IMPORT_ERROR_MESSAGE` chained from the
original import failure of the `portkey` module, and does so if and only if
the package cannot be imported. -/
theorem portkey_c3_import_guards (available : Bool) (mod : PortkeyModule)
    (mode : Modes) (api_key base_url : Option String) (s : Portkey)
    (arg : LLMParamsArg) (create : Request → PortkeyResponse)
    (prompt : String) (stop : Option (List String)) (kwargs : KwArgs) :
    (raisesPortkeyImportError (Portkey.init available mod mode api_key base_url) ↔
      available = false) ∧
    (raisesPortkeyImportError (Portkey.add_llms available s arg) ↔ available = false) ∧
    (raisesPortkeyImportError (Portkey.call available create s prompt stop kwargs) ↔
      available = false) ∧
    (raisesPortkeyImportError (Portkey.clientProp available s) ↔ available = false) ∧
    (available = false →
      Portkey.init available mod mode api_key base_url =
        .error (.importError IMPORT_ERROR_MESSAGE ⟨"portkey"⟩) ∧
      Portkey.add_llms available s arg =
        .error (.importError IMPORT_ERROR_MESSAGE ⟨"portkey"⟩) ∧
      Portkey.call available create s prompt stop kwargs =
        .error (.importError IMPORT_ERROR_MESSAGE ⟨"portkey"⟩) ∧
      Portkey.clientProp available s =
        .error (.importError IMPORT_ERROR_MESSAGE ⟨"portkey"⟩)) := by
  cases available with
  | false =>
    refine ⟨?_, ?_, ?_, ?_, ?_⟩ <;>
      simp [raisesPortkeyImportError, Portkey.init, Portkey.add_llms,
        Portkey.call, Portkey.clientProp, importModule]
  | true =>
    refine ⟨?_, ?_, ?_, ?_, by simp⟩
    · simp [raisesPortkeyImportError, Portkey.init, importModule]
    · simp only [raisesPortkeyImportError, Portkey.add_llms, importModule, if_true]
      constructor
      · rintro ⟨m, c, hmc⟩
        cases hm : s.model with
        | some v => simp [hm] at hmc
        | none =>
          cases hl : s.llms ++ normalizeLLMParams arg with
          | nil => simp [hm, hl] at hmc
          | cons f tl => simp [hm, hl] at hmc
      · intro hfalse
        exact absurd hfalse (by simp)
    · simp only [raisesPortkeyImportError, Portkey.call, Portkey.clientProp,
        importModule, if_true]
      constructor
      · rintro ⟨m, c, hmc⟩
        cases hch : (create ⟨prompt, false, stop, kwargs⟩).choices with
        | nil => simp [hch] at hmc
        | cons f tl => simp [hch] at hmc
      · intro hfalse
        exact absurd hfalse (by simp)
    · simp [raisesPortkeyImportError, Portkey.clientProp, importModule]

/-- C4: the constructor maps framework configuration onto the gateway client
module: `portkey.api_key` is assigned exactly when the `api_key` argument is
not `None` and is otherwise left untouched, likewise `portkey.base_url`;
`portkey.mode = mode` is assigned unconditionally; the module (with those
assignments applied) is stored in `self._portkey`; and `self.mode = mode` is
set on the adapter. -/
theorem portkey_c4_init_mapping (mod : PortkeyModule) (mode : Modes)
    (api_key base_url : Option String) :
    ∃ s, Portkey.init true mod mode api_key base_url = .ok s ∧
      (api_key = none → s.portkeyMod.api_key = mod.api_key) ∧
      (∀ k, api_key = some k → s.portkeyMod.api_key = some k) ∧
      (base_url = none → s.portkeyMod.base_url = mod.base_url) ∧
      (∀ b, base_url = some b → s.portkeyMod.base_url = some b) ∧
      s.portkeyMod.mode = some mode ∧
      s.portkeyMod.config = mod.config ∧
      s.mode = some mode := by
  cases api_key <;> cases base_url <;>
    exact ⟨_, rfl, by simp [Portkey.init, importModule, Portkey.pydanticDefaults]⟩

/-- Adapter state used to exercise `_call` on a configuration whose gateway
module carries a routing mode different from the adapter's. -/
def c5State : Portkey :=
  { mode := some "single", model := some "gpt-4", streaming := false,
    llms := [{ model := "gpt-4" }],
    portkeyMod := ⟨none, none, some "fallback", none⟩ }

/-- Oracle returning one choice with text `"hi"` for any request. -/
def c5Oracle : Request → PortkeyResponse := fun _ => ⟨[⟨some "hi"⟩]⟩

/-- The adapter state after `_call` on `c5State`: only the module's `config`
attribute has changed. -/
def c5Post : Portkey :=
  { c5State with portkeyMod := { c5State.portkeyMod with config := some ⟨c5State.llms⟩ } }

/-- C5 counterexample: `_call` does not set the routing mode on the gateway
client as part of preparing the request.  On an adapter whose mode is
`"single"` but whose gateway module still carries mode `"fallback"`, a
`_call` invocation completes while leaving the module's mode at
`"fallback"`, different from the adapter's mode — so the mode is not
configured per request. -/
theorem portkey_c5_counterexample :
    Portkey.call true c5Oracle c5State "p" none [] =
      .ok (c5Post, ⟨"p", false, none, []⟩, "hi") ∧
    c5Post.portkeyMod.mode = some "fallback" ∧
    c5State.mode = some "single" ∧
    ¬ c5Post.portkeyMod.mode = c5State.mode := by
  refine ⟨rfl, rfl, rfl, by decide⟩

/-- C5 amended: the routing mode is configured once, at construction —
`__init__` assigns `portkey.mode = mode` — and the request methods never
touch it: `_call` and `_stream` leave the gateway module's mode exactly as
it was; per request they rebuild only the client config. -/
theorem portkey_c5_amended (mod : PortkeyModule) (mode : Modes)
    (api_key base_url : Option String) (s : Portkey)
    (create : Request → PortkeyResponse) (createS : Request → List StreamToken)
    (prompt : String) (stop : Option (List String)) (kwargs : KwArgs) (rm : Bool) :
    (∀ s0, Portkey.init true mod mode api_key base_url = .ok s0 →
      s0.portkeyMod.mode = some mode) ∧
    (∀ s' req txt, Portkey.call true create s prompt stop kwargs = .ok (s', req, txt) →
      s'.portkeyMod.mode = s.portkeyMod.mode) ∧
    (∀ s' req evs, Portkey.stream true createS s prompt stop kwargs rm = .ok (s', req, evs) →
      s'.portkeyMod.mode = s.portkeyMod.mode) := by
  refine ⟨?_, ?_, ?_⟩
  · intro s0 h
    cases api_key <;> cases base_url <;>
      simp_all [Portkey.init, importModule, Portkey.pydanticDefaults] <;>
      simp [← h]
  · intro s' req txt h
    simp only [Portkey.call, Portkey.clientProp, importModule, if_true] at h
    cases hch : (create ⟨prompt, false, stop, kwargs⟩).choices with
    | nil => simp [hch] at h
    | cons c cs =>
      simp [hch] at h
      simp [← h.1]
  · intro s' req evs h
    simp only [Portkey.stream, Portkey.clientProp, importModule, if_true] at h
    cases hse : streamEvents rm (createS ⟨prompt, true, stop, kwargs⟩) with
    | error e => simp [hse] at h
    | ok l =>
      simp [hse] at h
      simp [← h.1]

lemma add_llms_ok_state (s s1 : Portkey) (arg : LLMParamsArg)
    (h : Portkey.add_llms true s arg = .ok s1) :
    s1.llms = s.llms ++ normalizeLLMParams arg ∧ s1.mode = s.mode ∧
    s1.streaming = s.streaming ∧ s1.portkeyMod = s.portkeyMod := by
  simp only [Portkey.add_llms, importModule, if_true] at h
  cases hm : s.model with
  | some m =>
    simp [hm] at h
    simp [← h]
  | none =>
    cases hl : s.llms ++ normalizeLLMParams arg with
    | nil => simp [hm, hl] at h
    | cons f tl =>
      simp [hm, hl] at h
      simp [← h, hl]

/-- C6: on each access of the `_client` property — hence within each `_call`
and each `_stream` — the gateway client's config is rebuilt as
`Config(llms=self.llms)` from the adapter's current `llms` list; in
particular, after a successful `add_llms`, the very next `_call` runs with a
config containing the extended list. -/
theorem portkey_c6_config_rebuild (s : Portkey) (create : Request → PortkeyResponse)
    (createS : Request → List StreamToken) (prompt : String)
    (stop : Option (List String)) (kwargs : KwArgs) (rm : Bool) (arg : LLMParamsArg) :
    (∃ s1 m, Portkey.clientProp true s = .ok (s1, m) ∧
      m.config = some ⟨s.llms⟩ ∧ s1.portkeyMod = m) ∧
    (∀ s' req txt, Portkey.call true create s prompt stop kwargs = .ok (s', req, txt) →
      s'.portkeyMod.config = some ⟨s.llms⟩) ∧
    (∀ s' req evs, Portkey.stream true createS s prompt stop kwargs rm = .ok (s', req, evs) →
      s'.portkeyMod.config = some ⟨s.llms⟩) ∧
    (∀ s2, Portkey.add_llms true s arg = .ok s2 →
      ∀ s' req txt, Portkey.call true create s2 prompt stop kwargs = .ok (s', req, txt) →
        s'.portkeyMod.config = some ⟨s.llms ++ normalizeLLMParams arg⟩) := by
  have hcall : ∀ (u : Portkey) s' req txt,
      Portkey.call true create u prompt stop kwargs = .ok (s', req, txt) →
      s'.portkeyMod.config = some ⟨u.llms⟩ := by
    intro u s' req txt h
    simp only [Portkey.call, Portkey.clientProp, importModule, if_true] at h
    cases hch : (create ⟨prompt, false, stop, kwargs⟩).choices with
    | nil => simp [hch] at h
    | cons c cs =>
      simp [hch] at h
      simp [← h.1]
  refine ⟨⟨_, _, rfl, rfl, rfl⟩, hcall s, ?_, ?_⟩
  · intro s' req evs h
    simp only [Portkey.stream, Portkey.clientProp, importModule, if_true] at h
    cases hse : streamEvents rm (createS ⟨prompt, true, stop, kwargs⟩) with
    | error e => simp [hse] at h
    | ok l =>
      simp [hse] at h
      simp [← h.1]
  · intro s2 hadd s' req txt h
    have hs2 := add_llms_ok_state s s2 arg hadd
    have := hcall s2 s' req txt h
    rw [this, hs2.1]

/-- C7: the request methods delegate without mutating the adapter's own
configuration: any successful `_call`, and any completely consumed
`_stream`, leaves the adapter fields `llms`, `mode`, `model` and `streaming`
unchanged. -/
theorem portkey_c7_no_config_mutation (s : Portkey)
    (create : Request → PortkeyResponse) (createS : Request → List StreamToken)
    (prompt : String) (stop : Option (List String)) (kwargs : KwArgs) (rm : Bool) :
    (∀ s' req txt, Portkey.call true create s prompt stop kwargs = .ok (s', req, txt) →
      s'.llms = s.llms ∧ s'.mode = s.mode ∧ s'.model = s.model ∧
        s'.streaming = s.streaming) ∧
    (∀ s' req evs, Portkey.stream true createS s prompt stop kwargs rm = .ok (s', req, evs) →
      s'.llms = s.llms ∧ s'.mode = s.mode ∧ s'.model = s.model ∧
        s'.streaming = s.streaming) := by
  constructor
  · intro s' req txt h
    simp only [Portkey.call, Portkey.clientProp, importModule, if_true] at h
    cases hch : (create ⟨prompt, false, stop, kwargs⟩).choices with
    | nil => simp [hch] at h
    | cons c cs =>
      simp [hch] at h
      simp [← h.1]
  · intro s' req evs h
    simp only [Portkey.stream, Portkey.clientProp, importModule, if_true] at h
    cases hse : streamEvents rm (createS ⟨prompt, true, stop, kwargs⟩) with
    | error e => simp [hse] at h
    | ok l =>
      simp [hse] at h
      simp [← h.1]

/-- A freshly constructed adapter (mode set, `model` `None`, no llms), as
produced by the constructor. -/
def c8FreshState : Portkey :=
  { mode := some "single", model := none, streaming := false, llms := [],
    portkeyMod := ⟨none, none, some "single", none⟩ }

/-- C8 counterexample: `add_llms` does not return `self` for every argument.
Called with the empty list on a freshly constructed adapter (whose `model`
is `None` and whose `llms` list is empty), `self.llms[0]` raises
`IndexError` instead of returning the adapter. -/
theorem portkey_c8_counterexample :
    Portkey.add_llms true c8FreshState (.list []) = .error .indexError := rfl

/-- C8 amended: a single `LLMOptions` argument is treated exactly as the
one-element list containing it, and — provided the call does not raise
`IndexError`, i.e. `self.model` is already set or the extended list is
nonempty — the parameter sets are appended to the end of `self.llms`
preserving prior entries and argument order, `self.model` is set to
`self.llms[0].model` if and only if it was `None` before, and the updated
adapter (`self`) is returned.  On an adapter with `model` `None` and no
llms, `add_llms([])` raises `IndexError` instead. -/
theorem portkey_c8_amended (s : Portkey) (o : LLMOptions) (arg : LLMParamsArg)
    (h : s.model ≠ none ∨ s.llms ++ normalizeLLMParams arg ≠ []) :
    Portkey.add_llms true s (.single o) = Portkey.add_llms true s (.list [o]) ∧
    ∃ s1, Portkey.add_llms true s arg = .ok s1 ∧
      s1.llms = s.llms ++ normalizeLLMParams arg ∧
      s1.mode = s.mode ∧ s1.streaming = s.streaming ∧ s1.portkeyMod = s.portkeyMod ∧
      (∀ m, s.model = some m → s1.model = some m) ∧
      (s.model = none → s1.model = (s.llms ++ normalizeLLMParams arg).head?.map LLMOptions.model) := by
  refine ⟨rfl, ?_⟩
  cases hm : s.model with
  | some m =>
    refine ⟨{ s with llms := s.llms ++ normalizeLLMParams arg }, ?_, rfl, rfl, rfl, rfl,
      ?_, ?_⟩
    · simp [Portkey.add_llms, importModule, hm]
    · intro m' hm'
      rw [hm]
      exact hm'
    · intro hnone
      exact absurd hnone (by simp)
  | none =>
    cases hl : s.llms ++ normalizeLLMParams arg with
    | nil =>
      rcases h with h | h
      · exact absurd hm h
      · exact absurd hl h
    | cons f tl =>
      refine ⟨{ s with llms := f :: tl, model := some f.model },
        ?_, rfl, rfl, rfl, rfl, ?_, ?_⟩
      · simp [Portkey.add_llms, importModule, hm, hl]
      · intro m' hm'
        exact absurd hm' (by simp)
      · intro _
        simp

/-- C9: the constructor unconditionally overwrites the field's declared
default `"gpt-3.5-turbo"` with `None` — immediately after construction
`self.model` is `None` — and `self.model` becomes non-`None` through the
first successful `add_llms` call, after which it equals the model of the
first LLM parameter set ever added. -/
theorem portkey_c9_model_lifecycle (mod : PortkeyModule) (mode : Modes)
    (api_key base_url : Option String) :
    (Portkey.pydanticDefaults mod).model = some "gpt-3.5-turbo" ∧
    ∃ s0, Portkey.init true mod mode api_key base_url = .ok s0 ∧
      s0.model = none ∧ s0.llms = [] ∧
      (∀ create prompt stop kwargs s1 req txt,
        Portkey.call true create s0 prompt stop kwargs = .ok (s1, req, txt) →
          s1.model = none) ∧
      (∀ createS prompt stop kwargs rm s1 req evs,
        Portkey.stream true createS s0 prompt stop kwargs rm = .ok (s1, req, evs) →
          s1.model = none) ∧
      ∀ arg s1, Portkey.add_llms true s0 arg = .ok s1 →
        ∃ first rest, normalizeLLMParams arg = first :: rest ∧
          s1.model = some first.model := by
  refine ⟨rfl, ⟨_, rfl, ?_, ?_, ?_, ?_, ?_⟩⟩
  · simp [Portkey.init, importModule]
  · simp [Portkey.init, importModule, Portkey.pydanticDefaults]
  · intro create prompt stop kwargs s1 req txt h
    simp only [Portkey.call, Portkey.clientProp, importModule, if_true] at h
    cases hch : (create ⟨prompt, false, stop, kwargs⟩).choices with
    | nil => simp [hch] at h
    | cons c cs =>
      simp [hch] at h
      simp [← h.1]
  · intro createS prompt stop kwargs rm s1 req evs h
    simp only [Portkey.stream, Portkey.clientProp, importModule, if_true] at h
    cases hse : streamEvents rm (createS ⟨prompt, true, stop, kwargs⟩) with
    | error e => simp [hse] at h
    | ok l =>
      simp [hse] at h
      simp [← h.1]
  · intro arg s1 h
    simp only [Portkey.add_llms, importModule, if_true] at h
    simp only [Portkey.init, importModule, Portkey.pydanticDefaults] at h
    cases hn : normalizeLLMParams arg with
    | nil => simp [hn] at h
    | cons f tl =>
      refine ⟨f, tl, rfl, ?_⟩
      simp [hn] at h
      simp [← h]

/-- A freshly constructed adapter used for the grouping law of `add_llms`. -/
def c10FreshState : Portkey :=
  { mode := some "fallback", model := none, streaming := false, llms := [],
    portkeyMod := ⟨none, none, some "fallback", none⟩ }

/-- A concrete LLM parameter set. -/
def c10Option : LLMOptions := { model := "gpt-4" }

/-- C10 counterexample: `add_llms` is not a list homomorphism on the adapter
state for every pair of lists.  On a freshly constructed adapter, calling
`add_llms([])` and then `add_llms([c10Option])` raises `IndexError` on the
first call, while the single call `add_llms([] ++ [c10Option])` succeeds and
returns the extended adapter — the two are not the same state. -/
theorem portkey_c10_counterexample :
    Portkey.addSeq true c10FreshState [] [c10Option] = .error .indexError ∧
    Portkey.add_llms true c10FreshState (.list ([] ++ [c10Option])) =
      .ok { c10FreshState with llms := [c10Option], model := some "gpt-4" } :=
  ⟨rfl, rfl⟩

/-- C10 amended: whenever the first call does not raise `IndexError` — that
is, `self.model` is already set or `self.llms ++ a` is nonempty — calling
`add_llms(a)` and then `add_llms(b)` leaves the adapter in exactly the same
state as the single call `add_llms(a ++ b)` (for any import availability);
in particular the resulting `model` field depends only on the first element
added, not on the grouping.  On a fresh adapter with `a = []` and `b`
nonempty the law fails: the sequential form raises `IndexError` while the
combined form succeeds. -/
theorem portkey_c10_amended (available : Bool) (s : Portkey) (a b : List LLMOptions)
    (h : s.model ≠ none ∨ s.llms ++ a ≠ []) :
    Portkey.addSeq available s a b = Portkey.add_llms available s (.list (a ++ b)) := by
  cases available with
  | false => rfl
  | true =>
    cases hm : s.model with
    | some m =>
      simp [Portkey.addSeq, Portkey.add_llms, importModule, normalizeLLMParams, hm,
        List.append_assoc]
    | none =>
      cases hl : s.llms ++ a with
      | nil =>
        rcases h with h | h
        · exact absurd hm h
        · exact absurd hl h
      | cons f tl =>
        have hassoc : s.llms ++ (a ++ b) = f :: (tl ++ b) := by
          rw [← List.append_assoc, hl]
          rfl
        simp [Portkey.addSeq, Portkey.add_llms, importModule, normalizeLLMParams, hm,
          hl, hassoc]

/-- Concrete adapter state for exercising `_call`. -/
def w1State : Portkey :=
  { mode := some "single", model := some "gpt-4", streaming := false,
    llms := [{ model := "gpt-4" }], portkeyMod := ⟨none, none, some "single", none⟩ }

/-- Concrete `_call` oracle with one choice of text `"hello"`. -/
def w1Create : Request → PortkeyResponse := fun _ => ⟨[⟨some "hello"⟩]⟩

/-- The state after `_call` on `w1State`. -/
def w1Post : Portkey :=
  { w1State with portkeyMod := { w1State.portkeyMod with config := some ⟨w1State.llms⟩ } }

/-- Concrete request issued by that `_call`. -/
def w1Req : Request := ⟨"p", false, none, []⟩

theorem portkey_c1_witness :
    Portkey.call true w1Create w1State "p" none [] =
      .ok (w1Post, w1Req, pyStrOr (Choice.mk (some "hello")).text "") :=
  (portkey_c1_call w1Create w1State "p" none [] ⟨some "hello"⟩ [] rfl).1

/-- Concrete adapter state for exercising `_stream`. -/
def w2State : Portkey :=
  { mode := some "single", model := some "gpt-4", streaming := false,
    llms := [{ model := "gpt-4" }], portkeyMod := ⟨none, none, some "single", none⟩ }

/-- Concrete streaming oracle: two tokens, the second with `None` text. -/
def w2Create : Request → List StreamToken := fun _ => [⟨[⟨some "a"⟩]⟩, ⟨[⟨none⟩]⟩]

theorem portkey_c2_witness :
    Portkey.stream true w2Create w2State "p" none [] true =
      .ok ({ w2State with portkeyMod := { w2State.portkeyMod with config := some ⟨w2State.llms⟩ } },
        ⟨"p", true, none, []⟩,
        specStreamEvents true (w2Create ⟨"p", true, none, []⟩)) :=
  portkey_c2_stream w2Create w2State "p" none [] true (by decide)

/-- Concrete module state for exercising the import guards. -/
def w3Mod : PortkeyModule := ⟨none, none, none, none⟩

/-- Concrete adapter state for exercising the import guards. -/
def w3State : Portkey :=
  { mode := some "single", model := none, streaming := false, llms := [],
    portkeyMod := w3Mod }

/-- Concrete oracle for exercising the import guards. -/
def w3Create : Request → PortkeyResponse := fun _ => ⟨[⟨some "x"⟩]⟩

theorem portkey_c3_witness :
    Portkey.init false w3Mod "single" none none =
      .error (.importError IMPORT_ERROR_MESSAGE ⟨"portkey"⟩) ∧
    Portkey.add_llms false w3State (.list []) =
      .error (.importError IMPORT_ERROR_MESSAGE ⟨"portkey"⟩) ∧
    Portkey.call false w3Create w3State "p" none [] =
      .error (.importError IMPORT_ERROR_MESSAGE ⟨"portkey"⟩) ∧
    Portkey.clientProp false w3State =
      .error (.importError IMPORT_ERROR_MESSAGE ⟨"portkey"⟩) :=
  (portkey_c3_import_guards false w3Mod "single" none none w3State (.list [])
    w3Create "p" none []).2.2.2.2 rfl

/-- Concrete module state for exercising the constructor. -/
def w4Mod : PortkeyModule := ⟨none, some "https://old.example", none, none⟩

/-- The state `__init__` produces from `w4Mod` with `api_key="k"`. -/
def w4Post : Portkey :=
  { mode := some "single", model := none, streaming := false, llms := [],
    portkeyMod := ⟨some "k", some "https://old.example", some "single", none⟩ }

theorem portkey_c4_witness :
    Portkey.init true w4Mod "single" (some "k") none = .ok w4Post ∧
    w4Post.portkeyMod.api_key = some "k" ∧
    w4Post.portkeyMod.base_url = w4Mod.base_url ∧
    w4Post.portkeyMod.mode = some "single" ∧
    w4Post.mode = some "single" := by
  obtain ⟨s, hs, hak0, hak, hbu0, hbu, hmode, hcfg, hsm⟩ :=
    portkey_c4_init_mapping w4Mod "single" (some "k") none
  have hpost : Portkey.init true w4Mod "single" (some "k") none = .ok w4Post := rfl
  rw [hs] at hpost
  have hsw : s = w4Post := Except.ok.inj hpost
  subst hsw
  exact ⟨hs, hak "k" rfl, hbu0 rfl, hmode, hsm⟩

/-- Module state with no mode configured, for the amended mode claim. -/
def w5Mod : PortkeyModule := ⟨none, none, none, none⟩

/-- The state `__init__` produces from `w5Mod` with mode `"single"`. -/
def w5Init : Portkey :=
  { mode := some "single", model := none, streaming := false, llms := [],
    portkeyMod := ⟨none, none, some "single", none⟩ }

/-- Concrete adapter state for the amended mode claim. -/
def w5State : Portkey :=
  { mode := some "single", model := some "m", streaming := false, llms := [],
    portkeyMod := ⟨none, none, some "single", none⟩ }

/-- Concrete `_call` oracle for the amended mode claim. -/
def w5Create : Request → PortkeyResponse := fun _ => ⟨[⟨some "hi"⟩]⟩

/-- Concrete streaming oracle for the amended mode claim. -/
def w5CreateS : Request → List StreamToken := fun _ => []

/-- The state after `_call` on `w5State`. -/
def w5CallPost : Portkey :=
  { w5State with portkeyMod := { w5State.portkeyMod with config := some ⟨w5State.llms⟩ } }

theorem portkey_c5_witness :
    w5Init.portkeyMod.mode = some "single" ∧
    w5CallPost.portkeyMod.mode = w5State.portkeyMod.mode := by
  have h := portkey_c5_amended w5Mod "single" none none w5State w5Create w5CreateS
    "p" none [] true
  exact ⟨h.1 w5Init rfl, h.2.1 w5CallPost ⟨"p", false, none, []⟩ "hi" rfl⟩

/-- Concrete adapter state for the config-rebuild claim. -/
def w6State : Portkey :=
  { mode := some "fallback", model := some "gpt-4", streaming := false,
    llms := [{ model := "gpt-4" }], portkeyMod := ⟨none, none, some "fallback", none⟩ }

/-- Concrete `_call` oracle for the config-rebuild claim. -/
def w6Create : Request → PortkeyResponse := fun _ => ⟨[⟨some "hi"⟩]⟩

/-- Concrete streaming oracle for the config-rebuild claim. -/
def w6CreateS : Request → List StreamToken := fun _ => []

/-- A second LLM parameter set added after construction. -/
def w6Opt : LLMOptions := { model := "claude-2" }

/-- The state after `_call` on `w6State`. -/
def w6CallPost : Portkey :=
  { w6State with portkeyMod := { w6State.portkeyMod with config := some ⟨w6State.llms⟩ } }

/-- The state after `add_llms([w6Opt])` on `w6State`. -/
def w6Added : Portkey := { w6State with llms := w6State.llms ++ [w6Opt] }

/-- The state after `_call` on `w6Added`. -/
def w6CallPost2 : Portkey :=
  { w6Added with portkeyMod := { w6Added.portkeyMod with config := some ⟨w6Added.llms⟩ } }

theorem portkey_c6_witness :
    w6CallPost.portkeyMod.config = some ⟨w6State.llms⟩ ∧
    w6CallPost2.portkeyMod.config = some ⟨w6State.llms ++ normalizeLLMParams (.list [w6Opt])⟩ := by
  have h := portkey_c6_config_rebuild w6State w6Create w6CreateS "p" none [] true
    (.list [w6Opt])
  exact ⟨h.2.1 w6CallPost ⟨"p", false, none, []⟩ "hi" rfl,
    h.2.2.2 w6Added rfl w6CallPost2 ⟨"p", false, none, []⟩ "hi" rfl⟩

/-- Concrete adapter state for the frame claim on the request methods. -/
def w7State : Portkey :=
  { mode := some "single", model := some "gpt-4", streaming := true,
    llms := [{ model := "gpt-4" }], portkeyMod := ⟨none, none, some "single", none⟩ }

/-- Concrete `_call` oracle for the frame claim. -/
def w7Create : Request → PortkeyResponse := fun _ => ⟨[⟨some "hi"⟩]⟩

/-- Concrete streaming oracle for the frame claim. -/
def w7CreateS : Request → List StreamToken := fun _ => []

/-- The state after `_call` on `w7State`. -/
def w7Post : Portkey :=
  { w7State with portkeyMod := { w7State.portkeyMod with config := some ⟨w7State.llms⟩ } }

theorem portkey_c7_witness :
    w7Post.llms = w7State.llms ∧ w7Post.mode = w7State.mode ∧
    w7Post.model = w7State.model ∧ w7Post.streaming = w7State.streaming :=
  (portkey_c7_no_config_mutation w7State w7Create w7CreateS "p" none [] true).1
    w7Post ⟨"p", false, none, []⟩ "hi" rfl

/-- Concrete adapter state with `model` already set, for `add_llms`. -/
def w8State : Portkey :=
  { mode := some "single", model := some "gpt-4", streaming := false,
    llms := [{ model := "gpt-4" }], portkeyMod := ⟨none, none, some "single", none⟩ }

/-- Concrete LLM parameter set for `add_llms`. -/
def w8Opt : LLMOptions := { model := "claude-2" }

/-- The state after `add_llms(w8Opt)` on `w8State`. -/
def w8Post : Portkey := { w8State with llms := w8State.llms ++ [w8Opt] }

theorem portkey_c8_witness :
    Portkey.add_llms true w8State (.single w8Opt) =
      Portkey.add_llms true w8State (.list [w8Opt]) ∧
    Portkey.add_llms true w8State (.single w8Opt) = .ok w8Post ∧
    w8Post.llms = w8State.llms ++ normalizeLLMParams (.single w8Opt) := by
  have h := portkey_c8_amended w8State w8Opt (.single w8Opt) (Or.inl (by decide))
  obtain ⟨heq, s1, hok, hllms, -, -, -, -, -⟩ := h
  have h2 : Portkey.add_llms true w8State (.single w8Opt) = .ok w8Post := rfl
  rw [hok] at h2
  have hs1 : s1 = w8Post := Except.ok.inj h2
  subst hs1
  exact ⟨heq, hok, hllms⟩

/-- Concrete module state for the model-lifecycle claim. -/
def w9Mod : PortkeyModule := ⟨none, none, none, none⟩

/-- The state `__init__` produces from `w9Mod` with mode `"single"`. -/
def w9Init : Portkey :=
  { mode := some "single", model := none, streaming := false, llms := [],
    portkeyMod := ⟨none, none, some "single", none⟩ }

/-- The first LLM parameter set ever added. -/
def w9Opt : LLMOptions := { model := "text-davinci-003" }

/-- The state after the first `add_llms([w9Opt])` on the fresh adapter. -/
def w9Post : Portkey := { w9Init with llms := [w9Opt], model := some w9Opt.model }

theorem portkey_c9_witness :
    (Portkey.pydanticDefaults w9Mod).model = some "gpt-3.5-turbo" ∧
    Portkey.init true w9Mod "single" none none = .ok w9Init ∧
    w9Init.model = none ∧
    w9Post.model = some w9Opt.model := by
  obtain ⟨hdef, s0, hs0, hmodel, hllms, -, -, hadd⟩ :=
    portkey_c9_model_lifecycle w9Mod "single" none none
  have hinit : Portkey.init true w9Mod "single" none none = .ok w9Init := rfl
  rw [hs0] at hinit
  have hsw : s0 = w9Init := Except.ok.inj hinit
  subst hsw
  obtain ⟨first, rest, hnorm, hmodel2⟩ :=
    hadd (.list [w9Opt]) w9Post (by rfl)
  have hfr : w9Opt = first := by
    have hx : [w9Opt] = first :: rest := hnorm
    injection hx with h1 h2
  rw [← hfr] at hmodel2
  exact ⟨hdef, hs0, hmodel, hmodel2⟩

/-- Concrete adapter state with `model` already set, for the grouping law. -/
def w10State : Portkey :=
  { mode := some "fallback", model := some "gpt-4", streaming := false,
    llms := [{ model := "gpt-4" }], portkeyMod := ⟨none, none, some "fallback", none⟩ }

/-- First batch of LLM parameter sets for the grouping law. -/
def w10a : LLMOptions := { model := "claude-2" }

/-- Second batch of LLM parameter sets for the grouping law. -/
def w10b : LLMOptions := { model := "text-davinci-003" }

theorem portkey_c10_witness :
    Portkey.addSeq true w10State [w10a] [w10b] =
      Portkey.add_llms true w10State (.list ([w10a] ++ [w10b])) :=
  portkey_c10_amended true w10State [w10a] [w10b] (Or.inl (by decide))
